import Mathlib

/-!
Shallow embedding of the Ingestion & Configuration Subsystem of
`Rust-backend-for-processing-excel-file` (source: `src/web.rs`).

The embedding models:
* the crate error enum, with exactly the variants constructed in `web.rs`
  (the spec's §7 list matches them);
* the calamine `DataType` cell values and the cell-to-string coercion of
  `get_header_row` (web.rs lines 140-152);
* `JobDetails::try_from` (web.rs lines 60-102) over a sequence of
  successfully read multipart fields;
* `upload_file` (web.rs lines 165-219) and `get_header_row`
  (web.rs lines 110-163) over an explicit world state (stored files and
  datasource entries), with the external collaborators (tokio `fs::write`,
  the sqlite datasource, the calamine workbook parser) supplied as
  explicit parameters.

Floating-point payloads (`Float`, `DateTime`, `Duration` carry `f64` in the
source) are abstracted by a type parameter `F` together with a total
rendering function `render : F → String` standing for Rust's `Display`;
the coercion's behaviour on these variants is implementation-defined
formatting, which the spec requires only to be deterministic and total.
-/

namespace ExcelBackend

/-- The crate error type (`crate::error::Error`). `error.rs` is not part of
the given sources; the variants are exactly those constructed in `web.rs`
and listed in spec §7. The source spells `InValidExcelFile` with a capital
`V`. -/
inductive Error where
  | NoFileUploaded
  | WritingToDisk (filename : String)
  | InValidExcelFile (detail : String)
  | MultipartFormError (detail : String)
  | DatabaseOperationFailed (detail : String)
  | IOError (detail : String)
  | Generic (detail : String)
deriving DecidableEq, Repr

/-- calamine's `CellErrorType` (external library), with its `Display`
strings. Only totality of the rendering matters for the claims. -/
inductive CellErrorType where
  | Div0
  | NA
  | Name
  | Null
  | Num
  | Ref
  | Value
  | GettingData
deriving DecidableEq, Repr

/-- `Display` for `CellErrorType` as in calamine. -/
def CellErrorType.toStr : CellErrorType → String
  | .Div0 => "#DIV/0!"
  | .NA => "#N/A"
  | .Name => "#NAME?"
  | .Null => "#NULL!"
  | .Num => "#NUM!"
  | .Ref => "#REF!"
  | .Value => "#VALUE!"
  | .GettingData => "#DATA!"

/-- calamine's `DataType` cell value. `F` abstracts `f64` payloads
(`Float`, `DateTime`, `Duration`); `DateTimeIso` and `DurationIso` carry
strings in calamine, and `Int` carries an `i64`. -/
inductive DataType (F : Type) where
  | String (s : String)
  | Int (i : Int)
  | Float (f : F)
  | Bool (b : Bool)
  | DateTime (d : F)
  | Duration (d : F)
  | DateTimeIso (s : String)
  | DurationIso (s : String)
  | Error (e : CellErrorType)
  | Empty
deriving DecidableEq, Repr

/-- The cell-to-string coercion performed cell by cell in `get_header_row`
(web.rs lines 140-152). `render` stands for Rust's `Display` on `f64`;
`i.to_string()` on `i64` and Lean's `toString : Int → String` agree
(decimal, `-` sign); `b.to_string()` is `"true"` / `"false"`. -/
def cellToString {F : Type} (render : F → String) : DataType F → String
  | .String s => s
  | .Int i => toString i
  | .Float f => render f
  | .Bool b => if b then "true" else "false"
  | .DateTime d => render d
  | .Duration d => render d
  | .DateTimeIso s => s
  | .DurationIso s => s
  | .Error e => e.toStr
  | .Empty => ""

/-- One multipart field as consumed by `JobDetails::try_from`, after a
successful read from the stream: an optional name, its textual content
(`field.text()`), and its raw bytes (`field.bytes()`). -/
structure Field where
  name : Option String
  text : String
  bytes : List Nat
deriving DecidableEq, Repr

/-- `JobDetails` (web.rs lines 30-35). -/
structure JobDetails where
  file_id : String
  contraction_file : Option (List Nat)
  search_terms : List String
  check_date : Bool
deriving DecidableEq, Repr

/-- The `while let` loop of `JobDetails::try_from` (web.rs lines 60-102),
with the accumulators threaded explicitly. `search_terms.insert(c, t)` at
`c = search_t_counter` is an append, since the counter always equals the
vector's length. Note line 75: a `fileId` field stores the field NAME
(`name.to_owned()`), not the field's text. -/
def tryFromLoop : List Field → Option String → Option (List Nat) →
    List String → Bool → Nat → Except Error JobDetails
  | [], fileId, cf, terms, cd, _ =>
    match fileId with
    | none => .error (.MultipartFormError "fileId not present in formdata")
    | some fid => .ok ⟨fid, cf, terms, cd⟩
  | f :: rest, fileId, cf, terms, cd, counter =>
    match f.name with
    | none => tryFromLoop rest fileId cf terms cd counter
    | some n =>
      if n = "fileId" then
        tryFromLoop rest (some n) cf terms cd counter
      else if n = "contractionFile" then
        tryFromLoop rest fileId (some f.bytes) terms cd counter
      else if n = "searchTerms" then
        if counter < 5 then
          tryFromLoop rest fileId cf (terms ++ [f.text]) cd (counter + 1)
        else
          tryFromLoop rest fileId cf terms cd counter
      else if n = "checkDate" then
        tryFromLoop rest fileId cf terms true counter
      else
        tryFromLoop rest fileId cf terms cd counter

/-- `JobDetails::try_from` (web.rs lines 60-102) over a multipart stream
read to completion without transport errors. -/
def JobDetails.tryFrom (fields : List Field) : Except Error JobDetails :=
  tryFromLoop fields none none [] false 0

/-- The textual values of the `searchTerms` fields of a request, in
arrival order. -/
def searchTexts (fields : List Field) : List String :=
  fields.filterMap (fun f => if f.name = some "searchTerms" then some f.text else none)

/-- Whether some field of the request is named `fileId`. -/
def hasFileId (fields : List Field) : Bool :=
  fields.any (fun f => f.name == some "fileId")

/-- `UploadFileEntry` (`data::model`), as built at web.rs lines 208-211. -/
structure UploadFileEntry where
  id : String
  file_path : String
deriving DecidableEq, Repr

/-- `RowsPayload` (`data::model`), as built at web.rs line 159. -/
structure RowsPayload where
  rows : List String
deriving DecidableEq, Repr

/-- One multipart field as consumed by `upload_file`: its optional
filename (`field.file_name()`) and the outcome of reading its body bytes
(`field.bytes()`), which the source unwraps at web.rs line 188. -/
structure UploadField where
  file_name : Option String
  bytesResult : Except String (List Nat)
deriving Repr

/-- A workbook as `get_header_row` consumes it through calamine: the list
of worksheets (`worksheet_range_at` indexes it), each worksheet either a
range-read error (`e.to_string()`) or its rows, each row a list of cells
in column order. -/
abbrev Workbook (F : Type) := List (Except String (List (List (DataType F))))

/-- Modelled from the spec: the external state touched by the core — the
upload directory's files (path ↦ bytes) and the datasource's records
(`id -> path`, per spec §1: `add_file_entry(path) -> id`,
`get_file_entry(id) -> \x7bid, path\x7d`). -/
structure World where
  files : List (String × List Nat)
  dsEntries : List (String × String)
deriving DecidableEq, Repr

/-- Look up the bytes stored at a path. -/
def lookupFile (files : List (String × List Nat)) (path : String) : Option (List Nat) :=
  (files.find? (fun e => e.1 == path)).map (fun e => e.2)

/-- `fs::write`: store bytes at a path, replacing any previous content. -/
def setFile (files : List (String × List Nat)) (path : String)
    (bytes : List Nat) : List (String × List Nat) :=
  files.filter (fun e => e.1 != path) ++ [(path, bytes)]

/-- `fs::remove_file`: drop the entry at a path. -/
def removeFile (files : List (String × List Nat)) (path : String) :
    List (String × List Nat) :=
  files.filter (fun e => e.1 != path)

/-- Modelled from the spec: `get_file_entry(id) -> \x7bid, path\x7d` of the
external datasource (spec §1), a key-value lookup over the registered
records; its failure detail text is opaque to this core. -/
def getFileEntry (dsEntries : List (String × String)) (id : String) :
    Except String String :=
  match dsEntries.find? (fun e => e.1 == id) with
  | some e => .ok e.2
  | none => .error "no file entry for id"

/-- The destination path of an upload: the fixed upload directory joined
with the original filename (web.rs lines 190-194). -/
def uploadPath (fname : String) : String :=
  ".\\data/" ++ fname

/-- The outcomes of `upload_file`: a JSON-encoded `UploadFileEntry`, a
crate error, or a Rust panic (web.rs line 188 unwraps the byte read). -/
inductive UploadOutcome where
  | ok (entry : UploadFileEntry)
  | err (e : Error)
  | panicked
deriving DecidableEq, Repr

/-- The fallible external steps of one `upload_file` call:
whether `fs::write` succeeds, the datasource's `add_file_entry` result
(its error propagates unchanged, web.rs line 205), and whether the
best-effort `fs::remove_file` succeeds (its result is discarded,
web.rs line 214). -/
structure UploadOracles where
  writeOk : Bool
  dsResult : Except Error String
  removeOk : Bool

/-- `upload_file` (web.rs lines 165-219). `stream` is the multipart
request: either a stream-level error on the first `next_field()`
(mapped at line 172 to `MultipartFormError` with the error's body text)
or the request's parts in order, of which only the first is ever read.
`parse` is calamine's `open_workbook_auto` applied to the stored bytes
(web.rs line 213 re-opens the just-written file purely to validate it).
Returns the outcome and the updated world. -/
def uploadFile {F : Type} (parse : List Nat → Except String (Workbook F))
    (stream : Except String (List UploadField)) (o : UploadOracles)
    (w : World) : UploadOutcome × World :=
  match stream with
  | .error e => (.err (.MultipartFormError e), w)
  | .ok [] => (.err .NoFileUploaded, w)
  | .ok (field :: _) =>
    match field.file_name with
    | none => (.err .NoFileUploaded, w)
    | some fname =>
      match field.bytesResult with
      | .error _ => (.panicked, w)
      | .ok bytes =>
        let path := uploadPath fname
        if o.writeOk then
          let w1 : World := { w with files := setFile w.files path bytes }
          match o.dsResult with
          | .error e => (.err e, w1)
          | .ok id =>
            let w2 : World := { w1 with dsEntries := w1.dsEntries ++ [(id, path)] }
            match parse bytes with
            | .error e =>
              let w3 : World :=
                if o.removeOk then { w2 with files := removeFile w2.files path } else w2
              (.err (.InValidExcelFile e), w3)
            | .ok _ => (.ok ⟨id, path⟩, w2)
        else
          (.err (.WritingToDisk fname), w)

/-- `get_header_row` (web.rs lines 110-163). Looks up the file entry for
the requested id, opens the stored file as a workbook (a missing file or
a parse failure both surface as calamine open errors, mapped to
`IOError`), selects worksheet 0, and coerces the first row's cells. -/
def getHeaderRow {F : Type} (render : F → String)
    (parse : List Nat → Except String (Workbook F)) (w : World)
    (id : String) : Except Error RowsPayload :=
  match getFileEntry w.dsEntries id with
  | .error e => .error (.DatabaseOperationFailed e)
  | .ok path =>
    match lookupFile w.files path with
    | none => .error (.IOError "No such file or directory")
    | some bytes =>
      match parse bytes with
      | .error e => .error (.IOError e)
      | .ok wb =>
        match wb.head? with
        | none => .error (.Generic "No sheet found in excel file")
        | some (.error e) => .error (.Generic e)
        | some (.ok sheet) =>
          .ok ⟨(sheet.take 1).flatMap (fun r => r.map (cellToString render))⟩

/-- Loop invariant of `JobDetails::try_from`: a successful parse collects,
after the already-accumulated terms, the next `5 - counter` `searchTerms`
texts of the remaining fields, in arrival order. -/
theorem tryFromLoop_search_terms (fields : List Field) :
    ∀ fid cf terms cd counter jd,
      tryFromLoop fields fid cf terms cd counter = Except.ok jd →
      jd.search_terms = terms ++ (searchTexts fields).take (5 - counter) := by
  induction fields with
  | nil =>
    intro fid cf terms cd counter jd h
    cases fid with
    | none => simp [tryFromLoop] at h
    | some v =>
      simp only [tryFromLoop, Except.ok.injEq] at h
      subst h
      simp [searchTexts]
  | cons f rest ih =>
    intro fid cf terms cd counter jd h
    simp only [tryFromLoop] at h
    split at h
    next hn =>
      simpa [searchTexts, List.filterMap_cons, hn] using ih _ _ _ _ _ _ h
    next n hn =>
      by_cases h1 : n = "fileId"
      · rw [if_pos h1] at h
        simpa [searchTexts, List.filterMap_cons, hn, h1] using ih _ _ _ _ _ _ h
      rw [if_neg h1] at h
      by_cases h2 : n = "contractionFile"
      · rw [if_pos h2] at h
        simpa [searchTexts, List.filterMap_cons, hn, h2] using ih _ _ _ _ _ _ h
      rw [if_neg h2] at h
      by_cases h3 : n = "searchTerms"
      · rw [if_pos h3] at h
        by_cases h4 : counter < 5
        · rw [if_pos h4] at h
          have hrec := ih _ _ _ _ _ _ h
          have hk : 5 - counter = (5 - (counter + 1)) + 1 := by omega
          simp only [searchTexts, List.filterMap_cons, hn, h3] at hrec ⊢
          rw [hk]
          simp [hrec, List.take_succ_cons]
        · rw [if_neg h4] at h
          have hrec := ih _ _ _ _ _ _ h
          have hk : 5 - counter = 0 := by omega
          simp only [searchTexts, List.filterMap_cons, hn, h3] at hrec ⊢
          rw [hk] at hrec ⊢
          simpa using hrec
      rw [if_neg h3] at h
      by_cases h5 : n = "checkDate"
      · rw [if_pos h5] at h
        simpa [searchTexts, List.filterMap_cons, hn, h3] using ih _ _ _ _ _ _ h
      · rw [if_neg h5] at h
        simpa [searchTexts, List.filterMap_cons, hn, h3] using ih _ _ _ _ _ _ h

/-- If no remaining field is named `fileId` and none was seen yet, the
loop ends in the `MultipartFormError` of web.rs lines 91-95. -/
theorem tryFromLoop_no_fileId (fields : List Field) :
    ∀ cf terms cd counter, hasFileId fields = false →
      tryFromLoop fields none cf terms cd counter =
        Except.error (Error.MultipartFormError "fileId not present in formdata") := by
  induction fields with
  | nil => intro cf terms cd counter _; rfl
  | cons f rest ih =>
    intro cf terms cd counter hh
    simp only [hasFileId, List.any_cons, Bool.or_eq_false_iff] at hh
    have hrest : hasFileId rest = false := hh.2
    simp only [tryFromLoop]
    split
    next hn => exact ih _ _ _ _ hrest
    next n hn =>
      have hne : n ≠ "fileId" := by
        intro he
        rw [hn, he] at hh
        simp at hh
      rw [if_neg hne]
      split_ifs <;> exact ih _ _ _ _ hrest

/-- If a `fileId` was already seen, or some remaining field is named
`fileId`, the loop succeeds. -/
theorem tryFromLoop_ok_of_fileId (fields : List Field) :
    ∀ fid cf terms cd counter,
      (fid.isSome = true ∨ hasFileId fields = true) →
      ∃ jd, tryFromLoop fields fid cf terms cd counter = Except.ok jd := by
  induction fields with
  | nil =>
    intro fid cf terms cd counter h
    cases fid with
    | none => simp [hasFileId] at h
    | some v => exact ⟨⟨v, cf, terms, cd⟩, rfl⟩
  | cons f rest ih =>
    intro fid cf terms cd counter h
    simp only [tryFromLoop]
    split
    next hn =>
      apply ih
      rcases h with h | h
      · exact Or.inl h
      · right
        simpa [hasFileId, List.any_cons, hn] using h
    next n hn =>
      by_cases h1 : n = "fileId"
      · rw [if_pos h1]
        exact ih _ _ _ _ _ (Or.inl rfl)
      have htail : fid.isSome = true ∨ hasFileId rest = true := by
        rcases h with h | h
        · exact Or.inl h
        · right
          simp only [hasFileId, List.any_cons, hn, Bool.or_eq_true] at h
          rcases h with h | h
          · exact absurd (by simpa using h) h1
          · simpa [hasFileId] using h
      rw [if_neg h1]
      split_ifs <;> exact ih _ _ _ _ _ htail

/-- C1: the claim says a `fileId` part's TEXTUAL VALUE becomes the
configuration's file identifier. The code (web.rs line 75) instead stores
the field's NAME: `file_id = Some(name.to_owned())`, never reading the
part's text. At the failing input — a single part named `fileId` with
text `"abc123"` — the parse succeeds with `file_id = "fileId"`, not
`"abc123"`. -/
theorem fileId_stores_field_name_not_value :
    JobDetails.tryFrom [⟨some "fileId", "abc123", []⟩] =
      Except.ok ⟨"fileId", none, [], false⟩ ∧ "fileId" ≠ "abc123" := by
  constructor
  · rfl
  · decide

/-- C4: whenever `JobDetails::try_from` succeeds, the configuration's
`search_terms` are exactly the first five `searchTerms` texts of the
request, in arrival order; the 6th and later occurrences are dropped. -/
theorem search_terms_first_five (fields : List Field) (jd : JobDetails)
    (h : JobDetails.tryFrom fields = Except.ok jd) :
    jd.search_terms = (searchTexts fields).take 5 := by
  simpa using tryFromLoop_search_terms fields none none [] false 0 jd h

/-- C4 witness: spec property 4 — eight `searchTerms` fields plus a
`fileId` parse to exactly the first five terms, with no error. -/
theorem search_terms_first_five_witness :
    JobDetails.tryFrom
        [⟨some "fileId", "f1", []⟩, ⟨some "searchTerms", "t1", []⟩,
         ⟨some "searchTerms", "t2", []⟩, ⟨some "searchTerms", "t3", []⟩,
         ⟨some "searchTerms", "t4", []⟩, ⟨some "searchTerms", "t5", []⟩,
         ⟨some "searchTerms", "t6", []⟩, ⟨some "searchTerms", "t7", []⟩,
         ⟨some "searchTerms", "t8", []⟩] =
      Except.ok ⟨"fileId", none, ["t1", "t2", "t3", "t4", "t5"], false⟩ ∧
    (⟨"fileId", none, ["t1", "t2", "t3", "t4", "t5"], false⟩ : JobDetails).search_terms =
      (searchTexts
        [⟨some "fileId", "f1", []⟩, ⟨some "searchTerms", "t1", []⟩,
         ⟨some "searchTerms", "t2", []⟩, ⟨some "searchTerms", "t3", []⟩,
         ⟨some "searchTerms", "t4", []⟩, ⟨some "searchTerms", "t5", []⟩,
         ⟨some "searchTerms", "t6", []⟩, ⟨some "searchTerms", "t7", []⟩,
         ⟨some "searchTerms", "t8", []⟩]).take 5 :=
  ⟨rfl, search_terms_first_five _ _ rfl⟩

/-- C7: a request with no part named `fileId` fails with
`MultipartFormError("fileId not present in formdata")`, whatever the
other fields are; with a `fileId` part present the parse succeeds, so it
never fails for this reason. -/
theorem no_fileId_multipart_error (fields : List Field) :
    (hasFileId fields = false →
      JobDetails.tryFrom fields =
        Except.error (Error.MultipartFormError "fileId not present in formdata")) ∧
    (hasFileId fields = true →
      ∃ jd, JobDetails.tryFrom fields = Except.ok jd) :=
  ⟨fun h => tryFromLoop_no_fileId fields none [] false 0 h,
   fun h => tryFromLoop_ok_of_fileId fields none none [] false 0 (Or.inr h)⟩

/-- C7 witness: a request holding only `contractionFile` and `checkDate`
fields fails with the `MultipartFormError`; adding a `fileId` part makes
the parse succeed. -/
theorem no_fileId_multipart_error_witness :
    JobDetails.tryFrom [⟨some "contractionFile", "", [1]⟩, ⟨some "checkDate", "", []⟩] =
      Except.error (Error.MultipartFormError "fileId not present in formdata") ∧
    ∃ jd, JobDetails.tryFrom
        [⟨some "contractionFile", "", [1]⟩, ⟨some "fileId", "x", []⟩] = Except.ok jd :=
  ⟨(no_fileId_multipart_error _).1 rfl, (no_fileId_multipart_error _).2 rfl⟩

/-- C3: the cell coercion of `get_header_row` is total — every one of the
ten `DataType` variants maps to exactly one string, with no panic (the
function is total by construction, over all constructors); in particular
a string cell maps to itself, a boolean to `"true"` / `"false"`, and an
empty cell to the empty string, an entry of its own rather than an
omitted one. -/
theorem cellToString_total {F : Type} (render : F → String) (c : DataType F) :
    (∃! s : String, cellToString render c = s) ∧
    (∀ s, c = DataType.String s → cellToString render c = s) ∧
    (∀ b, c = DataType.Bool b →
      cellToString render c = (if b then "true" else "false")) ∧
    (c = DataType.Empty → cellToString render c = "") := by
  refine ⟨⟨cellToString render c, rfl, fun y hy => hy.symm⟩, ?_, ?_, ?_⟩
  · intro s hs
    subst hs
    rfl
  · intro b hb
    subst hb
    rfl
  · intro hc
    subst hc
    rfl

/-- C3 witness: the coercion evaluated on concrete cells of each
highlighted shape. -/
theorem cellToString_total_witness :
    cellToString (fun _ : Unit => "") (DataType.String "Name") = "Name" ∧
    cellToString (fun _ : Unit => "") (DataType.Bool true) = "true" ∧
    cellToString (fun _ : Unit => "") (DataType.Bool false) = "false" ∧
    cellToString (fun _ : Unit => "") DataType.Empty = "" :=
  ⟨(cellToString_total (fun _ : Unit => "") (DataType.String "Name")).2.1 "Name" rfl,
   (cellToString_total (fun _ : Unit => "") (DataType.Bool true)).2.2.1 true rfl,
   (cellToString_total (fun _ : Unit => "") (DataType.Bool false)).2.2.1 false rfl,
   (cellToString_total (fun _ : Unit => "") DataType.Empty).2.2.2 rfl⟩

/-- `find?` skips a prefix on which the predicate is everywhere false. -/
theorem find?_append_of_forall_false {α : Type} (p : α → Bool)
    (l₁ l₂ : List α) (h : ∀ a ∈ l₁, p a = false) :
    (l₁ ++ l₂).find? p = l₂.find? p := by
  induction l₁ with
  | nil => rfl
  | cons a l ih =>
    have ha : p a = false := h a (List.mem_cons_self a l)
    simp only [List.cons_append, List.find?_cons, ha]
    exact ih (fun b hb => h b (List.mem_cons_of_mem a hb))

/-- After `fs::write`, the written path holds exactly the written bytes. -/
theorem lookupFile_setFile (files : List (String × List Nat))
    (path : String) (bytes : List Nat) :
    lookupFile (setFile files path bytes) path = some bytes := by
  unfold lookupFile setFile
  rw [find?_append_of_forall_false]
  · simp
  · intro a ha
    have := List.of_mem_filter ha
    simpa [bne] using this

/-- After `fs::remove_file`, the removed path holds nothing. -/
theorem lookupFile_removeFile (files : List (String × List Nat))
    (path : String) :
    lookupFile (removeFile files path) path = none := by
  unfold lookupFile removeFile
  have h : (files.filter (fun e => e.1 != path)).find? (fun e => e.1 == path) = none := by
    rw [List.find?_eq_none]
    intro a ha
    have hne := List.of_mem_filter ha
    simp only [bne_iff_ne, ne_eq] at hne
    simp [hne]
  rw [h]
  rfl

/-- C10: a stream-level failure while fetching the first multipart part
makes `upload_file` fail with `MultipartFormError` carrying the error's
body text (web.rs lines 169-173) — an error kind the spec's §6 table does
not list among Upload's failure outputs. The world is untouched. -/
theorem upload_stream_error_multipart {F : Type} (e : String)
    (parse : List Nat → Except String (Workbook F)) (o : UploadOracles)
    (w : World) :
    uploadFile parse (Except.error e) o w =
      (UploadOutcome.err (Error.MultipartFormError e), w) := rfl

/-- C9: at a request whose first part carries a filename but whose
body-byte read fails, `upload_file` panics — web.rs line 188 unwraps the
result of `field.bytes()` — instead of returning any error kind. -/
theorem upload_bytes_read_unwrap_panics :
    uploadFile (fun _ => Except.ok ([] : Workbook Unit))
      (Except.ok [⟨some "a.xlsx", Except.error "read aborted"⟩])
      ⟨true, Except.ok "id1", true⟩ ⟨[], []⟩ =
      (UploadOutcome.panicked, ⟨[], []⟩) := rfl

/-- C6: `upload_file` reads only the first part of the request — the
result is unchanged under any replacement of the later parts — and it
fails with `NoFileUploaded` exactly when the request has no parts or its
first part carries no filename (web.rs lines 169-187). The hypothesis
pins the external datasource to not itself fail with `NoFileUploaded`,
which it never does (its failure is a database error). -/
theorem upload_reads_only_first_part {F : Type}
    (parse : List Nat → Except String (Workbook F)) (o : UploadOracles)
    (w : World) (f : UploadField) (rest rest2 : List UploadField)
    (hds : o.dsResult ≠ Except.error Error.NoFileUploaded) :
    uploadFile parse (Except.ok (f :: rest)) o w =
      uploadFile parse (Except.ok (f :: rest2)) o w ∧
    (∀ stream, (uploadFile parse stream o w).1 =
        UploadOutcome.err Error.NoFileUploaded ↔
      stream = Except.ok [] ∨
        ∃ g r, stream = Except.ok (g :: r) ∧ g.file_name = none) := by
  constructor
  · rfl
  · intro stream
    constructor
    · intro h
      match stream with
      | .error e => simp [uploadFile] at h
      | .ok [] => exact Or.inl rfl
      | .ok (g :: r) =>
        cases hfn : g.file_name with
        | none => exact Or.inr ⟨g, r, rfl, hfn⟩
        | some fname =>
          exfalso
          cases hb : g.bytesResult with
          | error be => simp [uploadFile, hfn, hb] at h
          | ok bytes =>
            by_cases hw : o.writeOk = true
            · cases hd : o.dsResult with
              | error de =>
                simp [uploadFile, hfn, hb, hw, hd] at h
                exact hds (by rw [hd, h])
              | ok id =>
                cases hp : parse bytes with
                | error pe =>
                  by_cases hr : o.removeOk = true
                  · simp [uploadFile, hfn, hb, hw, hd, hp, hr] at h
                  · have hr2 : o.removeOk = false := by simpa using hr
                    simp [uploadFile, hfn, hb, hw, hd, hp, hr2] at h
                | ok wb => simp [uploadFile, hfn, hb, hw, hd, hp] at h
            · have hw2 : o.writeOk = false := by simpa using hw
              simp [uploadFile, hfn, hb, hw2] at h
    · rintro (rfl | ⟨g, r, rfl, hg⟩)
      · rfl
      · simp [uploadFile, hg]

/-- C6 witness: an empty request fails with `NoFileUploaded`; replacing
the parts after the first changes nothing at a concrete request. -/
theorem upload_reads_only_first_part_witness :
    (uploadFile (fun _ => Except.ok ([] : Workbook Unit)) (Except.ok [])
        ⟨true, Except.ok "id1", true⟩ ⟨[], []⟩).1 =
      UploadOutcome.err Error.NoFileUploaded ∧
    uploadFile (fun _ => Except.ok ([] : Workbook Unit))
        (Except.ok [⟨none, Except.ok []⟩]) ⟨true, Except.ok "id1", true⟩ ⟨[], []⟩ =
      uploadFile (fun _ => Except.ok ([] : Workbook Unit))
        (Except.ok [⟨none, Except.ok []⟩, ⟨some "b.xlsx", Except.ok [2]⟩])
        ⟨true, Except.ok "id1", true⟩ ⟨[], []⟩ :=
  ⟨((upload_reads_only_first_part (fun _ => Except.ok ([] : Workbook Unit))
        ⟨true, Except.ok "id1", true⟩ ⟨[], []⟩ ⟨none, Except.ok []⟩ [] []
        (by simp)).2 (Except.ok [])).mpr (Or.inl rfl),
   (upload_reads_only_first_part (fun _ => Except.ok ([] : Workbook Unit))
        ⟨true, Except.ok "id1", true⟩ ⟨[], []⟩ ⟨none, Except.ok []⟩ []
        [⟨some "b.xlsx", Except.ok [2]⟩] (by simp)).1⟩

/-- C2: when an upload's bytes are persisted and registered with the
datasource but then fail workbook validation, `upload_file` fails with
`InValidExcelFile` carrying the parse error text; the stored file is
deleted when the best-effort `fs::remove_file` succeeds, and the error is
the same when it does not (deletion failure is not surfaced); the
datasource entry created during registration remains (web.rs 202-216). -/
theorem upload_invalid_workbook_cleanup {F : Type}
    (parse : List Nat → Except String (Workbook F)) (o : UploadOracles)
    (w : World) (field : UploadField) (rest : List UploadField)
    (fname : String) (bytes : List Nat) (id perr : String)
    (hf : field.file_name = some fname)
    (hb : field.bytesResult = Except.ok bytes)
    (hw : o.writeOk = true)
    (hd : o.dsResult = Except.ok id)
    (hp : parse bytes = Except.error perr) :
    (uploadFile parse (Except.ok (field :: rest)) o w).1 =
      UploadOutcome.err (Error.InValidExcelFile perr) ∧
    (id, uploadPath fname) ∈
      (uploadFile parse (Except.ok (field :: rest)) o w).2.dsEntries ∧
    (o.removeOk = true →
      lookupFile (uploadFile parse (Except.ok (field :: rest)) o w).2.files
        (uploadPath fname) = none) := by
  by_cases hr : o.removeOk = true
  · refine ⟨?_, ?_, fun _ => ?_⟩ <;>
      simp [uploadFile, hf, hb, hw, hd, hp, hr, lookupFile_removeFile]
  · have hr2 : o.removeOk = false := by simpa using hr
    refine ⟨?_, ?_, fun hcon => absurd hcon hr⟩ <;>
      simp [uploadFile, hf, hb, hw, hd, hp, hr2]

/-- C2 witness: a concrete upload whose bytes never parse as a workbook:
the call fails with `InValidExcelFile`, the datasource keeps the entry,
and the stored file is gone. -/
theorem upload_invalid_workbook_cleanup_witness :
    (uploadFile (fun _ => (Except.error "not a workbook" : Except String (Workbook Unit)))
        (Except.ok [⟨some "f.xlsx", Except.ok [1, 2]⟩])
        ⟨true, Except.ok "id7", true⟩ ⟨[], []⟩).1 =
      UploadOutcome.err (Error.InValidExcelFile "not a workbook") ∧
    ("id7", uploadPath "f.xlsx") ∈
      (uploadFile (fun _ => (Except.error "not a workbook" : Except String (Workbook Unit)))
        (Except.ok [⟨some "f.xlsx", Except.ok [1, 2]⟩])
        ⟨true, Except.ok "id7", true⟩ ⟨[], []⟩).2.dsEntries ∧
    ((⟨true, Except.ok "id7", true⟩ : UploadOracles).removeOk = true →
      lookupFile
        (uploadFile (fun _ => (Except.error "not a workbook" : Except String (Workbook Unit)))
          (Except.ok [⟨some "f.xlsx", Except.ok [1, 2]⟩])
          ⟨true, Except.ok "id7", true⟩ ⟨[], []⟩).2.files
        (uploadPath "f.xlsx") = none) :=
  upload_invalid_workbook_cleanup
    (fun _ => (Except.error "not a workbook" : Except String (Workbook Unit)))
    ⟨true, Except.ok "id7", true⟩ ⟨[], []⟩ ⟨some "f.xlsx", Except.ok [1, 2]⟩ []
    "f.xlsx" [1, 2] "id7" "not a workbook" rfl rfl rfl rfl rfl

/-- C8: when the id resolves to a stored file that parses to a workbook
whose first worksheet reads successfully, `get_header_row` returns the
coerced first row and nothing else — an empty sheet yields `rows = []`,
not an error, and only row 0 is ever taken (web.rs lines 135-157). -/
theorem header_first_row_only {F : Type} (render : F → String)
    (parse : List Nat → Except String (Workbook F)) (w : World)
    (id path : String) (bytes : List Nat) (wb : Workbook F)
    (sheet : List (List (DataType F)))
    (he : getFileEntry w.dsEntries id = Except.ok path)
    (hfl : lookupFile w.files path = some bytes)
    (hp : parse bytes = Except.ok wb)
    (hs : wb.head? = some (Except.ok sheet)) :
    getHeaderRow render parse w id =
      Except.ok ⟨(sheet.take 1).flatMap (fun r => r.map (cellToString render))⟩ ∧
    (sheet = [] → getHeaderRow render parse w id = Except.ok ⟨[]⟩) ∧
    (∀ row tail, sheet = row :: tail →
      getHeaderRow render parse w id = Except.ok ⟨row.map (cellToString render)⟩) := by
  have hmain : getHeaderRow render parse w id =
      Except.ok ⟨(sheet.take 1).flatMap (fun r => r.map (cellToString render))⟩ := by
    simp [getHeaderRow, he, hfl, hp, hs]
  refine ⟨hmain, ?_, ?_⟩
  · intro hnil
    subst hnil
    simpa using hmain
  · intro row tail hcons
    subst hcons
    simpa using hmain

/-- C8 witness: a registered, stored file whose workbook's first sheet
has zero rows — the header request returns `rows = []`. -/
theorem header_first_row_only_witness :
    getHeaderRow (fun _ : Unit => "") (fun _ => Except.ok [Except.ok []])
      ⟨[("p", [0])], [("i", "p")]⟩ "i" = Except.ok ⟨[]⟩ :=
  (header_first_row_only (fun _ : Unit => "") (fun _ => Except.ok [Except.ok []])
      ⟨[("p", [0])], [("i", "p")]⟩ "i" "p" [0] [Except.ok []] []
      rfl rfl rfl rfl).2.1 rfl

/-- C5: round-trip — uploading bytes that parse to a workbook whose first
sheet's first row coerces to `["Name", "Age", "Active"]` succeeds with the
registered id, and a header request against the resulting world with that
id returns exactly those rows. The externals are pinned to succeed and the
datasource id to be fresh. -/
theorem upload_then_header_roundtrip {F : Type} (render : F → String)
    (parse : List Nat → Except String (Workbook F))
    (field : UploadField) (rest : List UploadField) (fname : String)
    (bytes : List Nat) (id : String) (o : UploadOracles) (w : World)
    (wb : Workbook F) (sheet : List (List (DataType F))) (row : List (DataType F))
    (hf : field.file_name = some fname)
    (hb : field.bytesResult = Except.ok bytes)
    (hw : o.writeOk = true)
    (hd : o.dsResult = Except.ok id)
    (hp : parse bytes = Except.ok wb)
    (hs : wb.head? = some (Except.ok sheet))
    (hrow : sheet.head? = some row)
    (hcoerce : row.map (cellToString render) = ["Name", "Age", "Active"])
    (hfresh : ∀ e ∈ w.dsEntries, e.1 ≠ id) :
    (uploadFile parse (Except.ok (field :: rest)) o w).1 =
      UploadOutcome.ok ⟨id, uploadPath fname⟩ ∧
    getHeaderRow render parse
        (uploadFile parse (Except.ok (field :: rest)) o w).2 id =
      Except.ok ⟨["Name", "Age", "Active"]⟩ := by
  have hup : uploadFile parse (Except.ok (field :: rest)) o w =
      (UploadOutcome.ok ⟨id, uploadPath fname⟩,
       ⟨setFile w.files (uploadPath fname) bytes,
        w.dsEntries ++ [(id, uploadPath fname)]⟩) := by
    simp [uploadFile, hf, hb, hw, hd, hp]
  rw [hup]
  refine ⟨rfl, ?_⟩
  have hentry : getFileEntry (w.dsEntries ++ [(id, uploadPath fname)]) id =
      Except.ok (uploadPath fname) := by
    unfold getFileEntry
    rw [find?_append_of_forall_false _ _ _
      (fun a ha => by rw [beq_eq_false_iff_ne]; exact hfresh a ha)]
    simp
  obtain ⟨tail, htail⟩ : ∃ tail, sheet = row :: tail := by
    cases sheet with
    | nil => simp at hrow
    | cons a tail =>
      simp only [List.head?_cons, Option.some.injEq] at hrow
      exact ⟨tail, by rw [hrow]⟩
  simp [getHeaderRow, hentry, lookupFile_setFile, hp, hs, htail, hcoerce]

/-- C5 witness: a concrete round-trip through upload and header
extraction with first row `["Name", "Age", "Active"]`. -/
theorem upload_then_header_roundtrip_witness :
    (uploadFile
        (fun _ => (Except.ok [Except.ok [[DataType.String "Name",
          DataType.String "Age", DataType.String "Active"]]] :
          Except String (Workbook Unit)))
        (Except.ok [⟨some "t.xlsx", Except.ok [9]⟩])
        ⟨true, Except.ok "id42", true⟩ ⟨[], []⟩).1 =
      UploadOutcome.ok ⟨"id42", uploadPath "t.xlsx"⟩ ∧
    getHeaderRow (fun _ : Unit => "")
        (fun _ => (Except.ok [Except.ok [[DataType.String "Name",
          DataType.String "Age", DataType.String "Active"]]] :
          Except String (Workbook Unit)))
        (uploadFile
          (fun _ => (Except.ok [Except.ok [[DataType.String "Name",
            DataType.String "Age", DataType.String "Active"]]] :
            Except String (Workbook Unit)))
          (Except.ok [⟨some "t.xlsx", Except.ok [9]⟩])
          ⟨true, Except.ok "id42", true⟩ ⟨[], []⟩).2 "id42" =
      Except.ok ⟨["Name", "Age", "Active"]⟩ :=
  upload_then_header_roundtrip (fun _ : Unit => "")
    (fun _ => (Except.ok [Except.ok [[DataType.String "Name",
      DataType.String "Age", DataType.String "Active"]]] :
      Except String (Workbook Unit)))
    ⟨some "t.xlsx", Except.ok [9]⟩ [] "t.xlsx" [9] "id42"
    ⟨true, Except.ok "id42", true⟩ ⟨[], []⟩
    [Except.ok [[DataType.String "Name", DataType.String "Age",
      DataType.String "Active"]]]
    [[DataType.String "Name", DataType.String "Age", DataType.String "Active"]]
    [DataType.String "Name", DataType.String "Age", DataType.String "Active"]
    rfl rfl rfl rfl rfl rfl rfl rfl
    (fun e he => absurd he (List.not_mem_nil e))

end ExcelBackend
